import Mathlib

/-!
Verification of the gstd property-reader subsystem
(`src/gstd/gstd_property_reader.c`).

The C file implements the read half of the property access and
type-masking layer: `gstd_property_reader_read` looks up a GObject
property descriptor by name, checks a resource-layer readability flag
and the native `G_PARAM_READABLE` flag, fetches the value, returns it
directly when it is already a GstdObject, and otherwise dispatches on
the descriptor value type through `gstd_property_mask_type` to build a
typed wrapper object.

The embedding below models the C control flow directly.  Stateful GLib
calls are modelled by an explicit effect trace (`Effect`): every
`g_object_get`, `g_object_new` and `GST_ERROR_OBJECT` emitted by the
code appends one event, so theorems can speak about which side effects
a call performs.  Returning the C `NULL` pointer is modelled by a
`ReadOutcome` whose `ret` field is `none`; the outer `Option` on the
result of `gstd_property_mask_type` models undefined behaviour (the
function dereferences the descriptor pointer without a null check, so
a failed lookup would be a null dereference; `none` marks that case).
-/

namespace Gstd

/-- GLib value-type tag of a property descriptor (`pspec->value_type`).
The constructors name exactly the `GType` cases the switch in
`gstd_property_mask_type` distinguishes; `gOther` stands for every
other registered type (floats, enums, boxed, object types, ...),
indexed by an opaque tag. -/
inductive GType where
  | gBoolean
  | gInt
  | gUint
  | gInt64
  | gUint64
  | gString
  | gOther (tag : Nat)
  deriving DecidableEq, Repr

/-- A GstdObject reference, as seen through this layer: resources own a
name (`GSTD_OBJECT_NAME`). -/
structure GstdObjectRef where
  name : String
  deriving DecidableEq, Repr

/-- A value stored in a GObject property, as fetched by `g_object_get`.
`vObject` is a value for which `GSTD_IS_OBJECT` holds; every other
constructor fails that check. -/
inductive GValue where
  | vBool (b : Bool)
  | vInt (i : Int)
  | vString (s : String)
  | vObject (o : GstdObjectRef)
  | vOther (tag : Nat)
  deriving DecidableEq, Repr

/-- The two readability bits tested by
`!GSTD_PARAM_IS_READ (pspec->flags) || !(pspec->flags & G_PARAM_READABLE)`.

`gstd_read` — Modelled from the spec: the resource-layer overlay flag
tested by the `GSTD_PARAM_IS_READ` macro, whose definition lives in
`gstd_object.h` (not among the provided sources); per the spec it is a
custom "resource-readable" permission bit carried in the descriptor
flags.  `g_readable` is the native `G_PARAM_READABLE` bit. -/
structure GstdParamFlags where
  gstd_read : Bool
  g_readable : Bool
  deriving DecidableEq, Repr

/-- A GObject property descriptor (`GParamSpec`): name, flags and
declared value type. -/
structure GParamSpec where
  name : String
  flags : GstdParamFlags
  value_type : GType
  deriving DecidableEq, Repr

/-- The live object being read: its resource name (`GSTD_OBJECT_NAME`),
the property descriptors registered on its class, and the current
per-property values of the instance. -/
structure GObjectData where
  name : String
  props : List GParamSpec
  values : List (String × GValue)
  deriving DecidableEq, Repr

/-- GLib `g_object_class_find_property`: look up the descriptor named
`n` among the class properties. -/
def g_object_class_find_property (props : List GParamSpec) (n : String) :
    Option GParamSpec :=
  props.find? (fun p => p.name == n)

/-- GLib `g_object_get` on one property: fetch the instance value stored
under `n` (the read path only calls this after the descriptor lookup
succeeded; the default for a missing entry is arbitrary). -/
def g_object_get (obj : GObjectData) (n : String) : GValue :=
  match obj.values.find? (fun kv => kv.fst == n) with
  | some kv => kv.snd
  | none => GValue.vOther 0

/-- The concrete GstdObject subclass passed to `g_object_new` by the
dispatcher: `GSTD_TYPE_PROPERTY_BOOLEAN`, `GSTD_TYPE_PROPERTY_INT` or
`GSTD_TYPE_PROPERTY_STRING`. -/
inductive GstdPropType where
  | propertyBoolean
  | propertyInt
  | propertyString
  deriving DecidableEq, Repr

/-- One observable side effect of the read path: an error log emitted
by `GST_ERROR_OBJECT` (carrying the strings interpolated into the
format), a `g_object_get` value fetch, or a `g_object_new` wrapper
construction. -/
inductive Effect where
  | logErrorNoSuch (propName objName : String)
  | logErrorNotReadable (propName : String)
  | logErrorNotValid (objName propName : String)
  | getInvoked (propName : String)
  | newObject (t : GstdPropType) (propName targetName : String)
  deriving DecidableEq, Repr

/-- The non-null pointer a successful read returns: either the fetched
value itself (when it already is a GstdObject) or a freshly constructed
typed property wrapper, recording the type tag and the `name` and
`target` construction properties (the target is identified by the
resource name of the object it backs). -/
inductive GstdReturnValue where
  | obj (o : GstdObjectRef)
  | typed (t : GstdPropType) (propName targetName : String)
  deriving DecidableEq, Repr

/-- Result of one call: the returned pointer (`none` models C `NULL`)
together with the trace of side effects the call performed, in order. -/
structure ReadOutcome where
  ret : Option GstdReturnValue
  trace : List Effect
  deriving DecidableEq, Repr

/-- The dispatcher `gstd_property_mask_type` (lines 122-168): re-look-up the
descriptor and switch on `pspec->value_type`.  `G_TYPE_BOOLEAN` builds
a `GSTD_TYPE_PROPERTY_BOOLEAN` wrapper; the four integer cases build a
`GSTD_TYPE_PROPERTY_INT` wrapper; the `G_TYPE_STRING` case, as written
in the source, also passes `GSTD_TYPE_PROPERTY_INT` to `g_object_new`;
the default logs an error and returns NULL.  The dereference
`pspec->value_type` is not guarded by a null check, so a failed lookup
is undefined behaviour, modelled by the result `none`. -/
def gstd_property_mask_type (obj : GObjectData) (n : String) :
    Option ReadOutcome :=
  match g_object_class_find_property obj.props n with
  | none => none
  | some pspec =>
    match pspec.value_type with
    | GType.gBoolean =>
        some ⟨some (GstdReturnValue.typed GstdPropType.propertyBoolean pspec.name obj.name),
              [Effect.newObject GstdPropType.propertyBoolean pspec.name obj.name]⟩
    | GType.gInt =>
        some ⟨some (GstdReturnValue.typed GstdPropType.propertyInt pspec.name obj.name),
              [Effect.newObject GstdPropType.propertyInt pspec.name obj.name]⟩
    | GType.gUint =>
        some ⟨some (GstdReturnValue.typed GstdPropType.propertyInt pspec.name obj.name),
              [Effect.newObject GstdPropType.propertyInt pspec.name obj.name]⟩
    | GType.gUint64 =>
        some ⟨some (GstdReturnValue.typed GstdPropType.propertyInt pspec.name obj.name),
              [Effect.newObject GstdPropType.propertyInt pspec.name obj.name]⟩
    | GType.gInt64 =>
        some ⟨some (GstdReturnValue.typed GstdPropType.propertyInt pspec.name obj.name),
              [Effect.newObject GstdPropType.propertyInt pspec.name obj.name]⟩
    | GType.gString =>
        some ⟨some (GstdReturnValue.typed GstdPropType.propertyInt pspec.name obj.name),
              [Effect.newObject GstdPropType.propertyInt pspec.name obj.name]⟩
    | GType.gOther _ =>
        some ⟨none, [Effect.logErrorNotValid obj.name n]⟩

/-- The reader `gstd_property_reader_read` (lines 85-120): the three
`g_return_val_if_fail` null guards, the descriptor lookup (NULL plus
error log when absent), the readability check (NULL plus error log when
either bit is cleared), the `g_object_get` fetch, the direct return of
a fetched GstdObject, and otherwise the dispatch to
`gstd_property_mask_type`.  `Option` arguments model nullable C
pointers; the outer `Option` on the result propagates the undefined
behaviour marker of the dispatcher. -/
def gstd_property_reader_read (iface : Option Unit) (object : Option GObjectData)
    (name : Option String) : Option ReadOutcome :=
  match iface with
  | none => some ⟨none, []⟩
  | some _ =>
    match object with
    | none => some ⟨none, []⟩
    | some obj =>
      match name with
      | none => some ⟨none, []⟩
      | some n =>
        match g_object_class_find_property obj.props n with
        | none => some ⟨none, [Effect.logErrorNoSuch n obj.name]⟩
        | some pspec =>
          if (!pspec.flags.gstd_read) || (!pspec.flags.g_readable) then
            some ⟨none, [Effect.logErrorNotReadable n]⟩
          else
            match g_object_get obj n with
            | GValue.vObject o =>
                some ⟨some (GstdReturnValue.obj o), [Effect.getInvoked n]⟩
            | _ =>
              match gstd_property_mask_type obj n with
              | none => none
              | some out => some ⟨out.ret, Effect.getInvoked n :: out.trace⟩

/-- Instance/descriptor agreement for the primitive types: the stored
value has the shape the declared `GType` promises.  Used as a
well-typedness hypothesis, since in GLib a property of a primitive type
can never hold a GstdObject value. -/
def value_matches : GType → GValue → Bool
  | GType.gBoolean, GValue.vBool _ => true
  | GType.gInt, GValue.vInt _ => true
  | GType.gUint, GValue.vInt _ => true
  | GType.gInt64, GValue.vInt _ => true
  | GType.gUint64, GValue.vInt _ => true
  | GType.gString, GValue.vString _ => true
  | _, _ => false

/-! Helper lemmas shared by several proofs. -/

/-- When the descriptor lookup fails, `read` returns NULL after logging
the no-such-resource error with the property and resource names. -/
theorem read_no_pspec_eq (obj : GObjectData) (n : String)
    (h : g_object_class_find_property obj.props n = none) :
    gstd_property_reader_read (some ()) (some obj) (some n) =
      some ⟨none, [Effect.logErrorNoSuch n obj.name]⟩ := by
  simp [gstd_property_reader_read, h]

/-- When either readability bit of the found descriptor is cleared,
`read` returns NULL after logging the not-readable error. -/
theorem read_denied_eq (obj : GObjectData) (n : String) (p : GParamSpec)
    (hf : g_object_class_find_property obj.props n = some p)
    (hd : p.flags.gstd_read = false ∨ p.flags.g_readable = false) :
    gstd_property_reader_read (some ()) (some obj) (some n) =
      some ⟨none, [Effect.logErrorNotReadable n]⟩ := by
  rcases hd with h | h <;> simp [gstd_property_reader_read, hf, h]

/-- A descriptor returned by the lookup carries exactly the looked-up
name. -/
theorem find_property_name_eq (obj : GObjectData) (n : String) (p : GParamSpec)
    (hf : g_object_class_find_property obj.props n = some p) : p.name = n := by
  have hq : obj.props.find? (fun q => q.name == n) = some p := hf
  have := List.find?_some hq
  simpa using this

/-! Concrete live objects used as witnesses and counterexamples. -/

/-- An element with one readable string-typed property `uri`. -/
def stringPropObject : GObjectData :=
  ⟨"e1",
   [⟨"uri", ⟨true, true⟩, GType.gString⟩],
   [("uri", GValue.vString "file0")]⟩

/-- An element whose integer property `secret` has the resource-layer
readability bit cleared. -/
def deniedPropObject : GObjectData :=
  ⟨"e1",
   [⟨"secret", ⟨false, true⟩, GType.gInt⟩],
   [("secret", GValue.vInt 3)]⟩

/-- An element that declares only a boolean property `mute` (and in
particular no property `volume-db`). -/
def e1NoVolume : GObjectData :=
  ⟨"e1",
   [⟨"mute", ⟨true, true⟩, GType.gBoolean⟩],
   [("mute", GValue.vBool false)]⟩

/-- C1: boolean-, integer- and string-valued readable properties are
claimed to yield the Boolean, Integer and String variants respectively.
The source violates this for strings: the `G_TYPE_STRING` case of
`gstd_property_mask_type` passes `GSTD_TYPE_PROPERTY_INT` to
`g_object_new` (lines 154-160), so reading the readable string property
`uri` constructs the Integer variant, not the String variant, even
though the wrapper name is correct. -/
theorem c1_string_property_masked_as_int :
    gstd_property_reader_read (some ()) (some stringPropObject) (some "uri") =
      some ⟨some (GstdReturnValue.typed GstdPropType.propertyInt "uri" "e1"),
            [Effect.getInvoked "uri",
             Effect.newObject GstdPropType.propertyInt "uri" "e1"]⟩ ∧
    GstdPropType.propertyInt ≠ GstdPropType.propertyString := by
  exact ⟨rfl, by decide⟩

/-- C2: whenever the resource-layer overlay bit or the native
readability bit (or both) is cleared on the found descriptor, `read`
fails with the not-readable error, returns NULL, and its trace contains
no wrapper construction. -/
theorem c2_denied_read_fails (obj : GObjectData) (n : String) (p : GParamSpec)
    (hf : g_object_class_find_property obj.props n = some p)
    (hd : p.flags.gstd_read = false ∨ p.flags.g_readable = false) :
    gstd_property_reader_read (some ()) (some obj) (some n) =
      some ⟨none, [Effect.logErrorNotReadable n]⟩ ∧
    ∀ t pn tn, Effect.newObject t pn tn ∉ [Effect.logErrorNotReadable n] := by
  refine ⟨read_denied_eq obj n p hf hd, ?_⟩
  intro t pn tn hm
  simp at hm

/-- C2 witness: reading the overlay-denied property `secret` of
`deniedPropObject` fails with the not-readable error. -/
theorem c2_denied_read_fails_witness :
    gstd_property_reader_read (some ()) (some deniedPropObject) (some "secret") =
      some ⟨none, [Effect.logErrorNotReadable "secret"]⟩ ∧
    ∀ t pn tn, Effect.newObject t pn tn ∉ [Effect.logErrorNotReadable "secret"] :=
  c2_denied_read_fails deniedPropObject "secret"
    ⟨"secret", ⟨false, true⟩, GType.gInt⟩ rfl (Or.inl rfl)

/-- C3: when no descriptor named `n` exists on the live object, `read`
fails with the no-such-resource error, whose diagnostic carries both
the property name and the resource name. -/
theorem c3_no_such_resource (obj : GObjectData) (n : String)
    (hf : g_object_class_find_property obj.props n = none) :
    gstd_property_reader_read (some ()) (some obj) (some n) =
      some ⟨none, [Effect.logErrorNoSuch n obj.name]⟩ :=
  read_no_pspec_eq obj n hf

/-- C3 witness: element `e1` has no property `volume-db`, so reading it
fails with the no-such-resource error naming `e1`. -/
theorem c3_no_such_resource_witness :
    gstd_property_reader_read (some ()) (some e1NoVolume) (some "volume-db") =
      some ⟨none, [Effect.logErrorNoSuch "volume-db" "e1"]⟩ :=
  c3_no_such_resource e1NoVolume "volume-db" rfl

/-- An element whose readable property `child` has a non-primitive
declared type and currently holds a GstdObject named `sub0`. -/
def objectPropObject : GObjectData :=
  ⟨"e1",
   [⟨"child", ⟨true, true⟩, GType.gOther 7⟩],
   [("child", GValue.vObject ⟨"sub0"⟩)]⟩

/-- An element with one readable property `vol` of a non-primitive
declared type (e.g. a float) holding a non-object value. -/
def floatPropObject : GObjectData :=
  ⟨"e1",
   [⟨"vol", ⟨true, true⟩, GType.gOther 1⟩],
   [("vol", GValue.vOther 1)]⟩

/-- C4 counterexample: the claim quantifies over every readable
property whose declared type is outside boolean, integer and string,
but the readable property `child` of `objectPropObject` has such a type
(`gOther 7`) and `read` nevertheless succeeds, returning the fetched
GstdObject directly with no unsupported-type error logged: the fetched
value being Resource-conformant takes priority over the type mask. -/
theorem c4_object_typed_property_reads_ok :
    gstd_property_reader_read (some ()) (some objectPropObject) (some "child") =
      some ⟨some (GstdReturnValue.obj ⟨"sub0"⟩), [Effect.getInvoked "child"]⟩ ∧
    ∀ o pn, Effect.logErrorNotValid o pn ∉ [Effect.getInvoked "child"] := by
  refine ⟨rfl, ?_⟩
  intro o pn hm
  simp at hm

/-- C4 (amended): for every readable property whose declared type is
outside boolean, integer and string and whose fetched value is not a
Resource-conformant object, `read` fails with the unsupported-type
error naming both the resource and the property, and does not crash
(the result is a defined outcome, not the undefined-behaviour
marker). -/
theorem c4_unsupported_type_errors (obj : GObjectData) (n : String)
    (p : GParamSpec) (k : Nat)
    (hf : g_object_class_find_property obj.props n = some p)
    (h1 : p.flags.gstd_read = true) (h2 : p.flags.g_readable = true)
    (ht : p.value_type = GType.gOther k)
    (hv : ∀ o, g_object_get obj n ≠ GValue.vObject o) :
    gstd_property_reader_read (some ()) (some obj) (some n) =
      some ⟨none, [Effect.getInvoked n, Effect.logErrorNotValid obj.name n]⟩ := by
  have hmask : gstd_property_mask_type obj n =
      some ⟨none, [Effect.logErrorNotValid obj.name n]⟩ := by
    simp [gstd_property_mask_type, hf, ht]
  rcases hval : g_object_get obj n with b | i | s | o | t
  case vObject => exact absurd hval (hv o)
  all_goals simp [gstd_property_reader_read, hf, h1, h2, hval, hmask]

/-- C4 witness: reading the readable non-primitive non-object property
`vol` of `floatPropObject` fails with the unsupported-type error naming
`e1` and `vol`. -/
theorem c4_unsupported_type_errors_witness :
    gstd_property_reader_read (some ()) (some floatPropObject) (some "vol") =
      some ⟨none, [Effect.getInvoked "vol", Effect.logErrorNotValid "e1" "vol"]⟩ :=
  c4_unsupported_type_errors floatPropObject "vol"
    ⟨"vol", ⟨true, true⟩, GType.gOther 1⟩ 1 rfl rfl rfl rfl
    (fun o h => by
      rw [show g_object_get floatPropObject "vol" = GValue.vOther 1 from rfl] at h
      exact GValue.noConfusion h)

/-- C5: when both readability bits are set and the fetched value is
already a GstdObject, `read` returns that object directly; the trace
shows only the value fetch — no wrapper construction and no
type-masking dispatch occurred. -/
theorem c5_resource_value_returned_directly (obj : GObjectData) (n : String)
    (p : GParamSpec) (o : GstdObjectRef)
    (hf : g_object_class_find_property obj.props n = some p)
    (h1 : p.flags.gstd_read = true) (h2 : p.flags.g_readable = true)
    (hv : g_object_get obj n = GValue.vObject o) :
    gstd_property_reader_read (some ()) (some obj) (some n) =
      some ⟨some (GstdReturnValue.obj o), [Effect.getInvoked n]⟩ ∧
    ∀ t pn tn, Effect.newObject t pn tn ∉ [Effect.getInvoked n] := by
  refine ⟨by simp [gstd_property_reader_read, hf, h1, h2, hv], ?_⟩
  intro t pn tn hm
  simp at hm

/-- C5 witness: reading `child` of `objectPropObject` returns the held
GstdObject `sub0` directly, with no wrapper construction. -/
theorem c5_resource_value_returned_directly_witness :
    gstd_property_reader_read (some ()) (some objectPropObject) (some "child") =
      some ⟨some (GstdReturnValue.obj ⟨"sub0"⟩), [Effect.getInvoked "child"]⟩ ∧
    ∀ t pn tn, Effect.newObject t pn tn ∉ [Effect.getInvoked "child"] :=
  c5_resource_value_returned_directly objectPropObject "child"
    ⟨"child", ⟨true, true⟩, GType.gOther 7⟩ ⟨"sub0"⟩ rfl rfl rfl rfl

/-- An element with one readable unsigned 64-bit integer property
`latency`. -/
def intPropObject : GObjectData :=
  ⟨"e1",
   [⟨"latency", ⟨true, true⟩, GType.gUint64⟩],
   [("latency", GValue.vInt 1200)]⟩

/-- C6: for a descriptor of any of the four native integer types
(signed or unsigned, 32- or 64-bit), the type-masking dispatcher builds
the single Integer variant wrapper. -/
theorem c6_integer_widths_normalized (obj : GObjectData) (n : String)
    (p : GParamSpec)
    (hf : g_object_class_find_property obj.props n = some p)
    (ht : p.value_type = GType.gInt ∨ p.value_type = GType.gUint ∨
          p.value_type = GType.gInt64 ∨ p.value_type = GType.gUint64) :
    gstd_property_mask_type obj n =
      some ⟨some (GstdReturnValue.typed GstdPropType.propertyInt p.name obj.name),
            [Effect.newObject GstdPropType.propertyInt p.name obj.name]⟩ := by
  rcases ht with h | h | h | h <;> simp [gstd_property_mask_type, hf, h]

/-- C6 witness: the dispatcher wraps the unsigned 64-bit property
`latency` of `intPropObject` in the Integer variant. -/
theorem c6_integer_widths_normalized_witness :
    gstd_property_mask_type intPropObject "latency" =
      some ⟨some (GstdReturnValue.typed GstdPropType.propertyInt "latency" "e1"),
            [Effect.newObject GstdPropType.propertyInt "latency" "e1"]⟩ :=
  c6_integer_widths_normalized intPropObject "latency"
    ⟨"latency", ⟨true, true⟩, GType.gUint64⟩ rfl
    (Or.inr (Or.inr (Or.inr rfl)))

/-- An element whose readable property `peer` holds a GstdObject whose
own name `other0` differs from the property name. -/
def peerPropObject : GObjectData :=
  ⟨"e0",
   [⟨"peer", ⟨true, true⟩, GType.gOther 9⟩],
   [("peer", GValue.vObject ⟨"other0"⟩)]⟩

/-- Every typed wrapper produced by the dispatcher carries the
looked-up property name and the target resource name. -/
theorem mask_typed_names (obj : GObjectData) (n : String) (out : ReadOutcome)
    (t : GstdPropType) (pn tn : String)
    (hm : gstd_property_mask_type obj n = some out)
    (hr : out.ret = some (GstdReturnValue.typed t pn tn)) :
    pn = n ∧ tn = obj.name := by
  rcases hf : g_object_class_find_property obj.props n with _ | p
  · simp [gstd_property_mask_type, hf] at hm
  · have hpn : p.name = n := find_property_name_eq obj n p hf
    rcases htv : p.value_type with _ | _ | _ | _ | _ | _ | k <;>
      simp [gstd_property_mask_type, hf, htv] at hm <;>
      rw [← hm] at hr <;> simp at hr
    all_goals exact ⟨hr.2.1.symm.trans hpn, hr.2.2.symm⟩

/-- C7 counterexample: the claim says every successful `read` returns a
resource named `n`, but reading the readable property `peer` of
`peerPropObject` succeeds and returns the fetched GstdObject, whose
name `other0` differs from the requested name `peer`. -/
theorem c7_direct_return_name_differs :
    gstd_property_reader_read (some ()) (some peerPropObject) (some "peer") =
      some ⟨some (GstdReturnValue.obj ⟨"other0"⟩), [Effect.getInvoked "peer"]⟩ ∧
    "other0" ≠ "peer" := by
  exact ⟨rfl, by decide⟩

/-- C7 (amended): every successful `read` that goes through the
type-masking path returns a typed wrapper whose name equals the
requested name `n` (and whose target is the read resource); a success
that directly returns an already-Resource-conformant fetched value may
carry a different name.  The embedding of `read` is a pure function of
its arguments, so no mutation of the resource occurs on any path. -/
theorem c7_wrapper_name_matches (obj : GObjectData) (n : String)
    (t : GstdPropType) (pn tn : String) (tr : List Effect)
    (h : gstd_property_reader_read (some ()) (some obj) (some n) =
         some ⟨some (GstdReturnValue.typed t pn tn), tr⟩) :
    pn = n ∧ tn = obj.name := by
  rcases hf : g_object_class_find_property obj.props n with _ | p
  · simp [gstd_property_reader_read, hf] at h
  · by_cases hflag : ((!p.flags.gstd_read) || (!p.flags.g_readable)) = true
    · simp [gstd_property_reader_read, hf, hflag] at h
    · have hflag2 : ((!p.flags.gstd_read) || (!p.flags.g_readable)) = false := by
        simpa using hflag
      rcases hv : g_object_get obj n with b | i | s | o | k <;>
        simp [gstd_property_reader_read, hf, hflag2, hv] at h
      all_goals {
        rcases hm : gstd_property_mask_type obj n with _ | out
        · rw [hm] at h; simp at h
        · rw [hm] at h
          simp at h
          exact mask_typed_names obj n out t pn tn hm h.1
      }

/-- C7 witness: reading the string property `uri` of `stringPropObject`
produces a typed wrapper, so the amended claim gives that its name is
`uri` and its target is `e1`. -/
theorem c7_wrapper_name_matches_witness : "uri" = "uri" ∧ "e1" = "e1" :=
  c7_wrapper_name_matches stringPropObject "uri" GstdPropType.propertyInt
    "uri" "e1"
    [Effect.getInvoked "uri", Effect.newObject GstdPropType.propertyInt "uri" "e1"]
    rfl

/-- C8: if any of the three arguments is NULL, `read` fails immediately
with a NULL result and an empty effect trace: the live object is never
touched and no partial state is created. -/
theorem c8_null_input_fails_safely (iface : Option Unit)
    (object : Option GObjectData) (pname : Option String)
    (h : iface = none ∨ object = none ∨ pname = none) :
    gstd_property_reader_read iface object pname = some ⟨none, []⟩ := by
  rcases h with h | h | h
  · subst h; rfl
  · subst h; cases iface <;> rfl
  · subst h
    cases iface with
    | none => rfl
    | some u => cases object <;> rfl

/-- C8 witness: a NULL resource argument makes `read` fail with no
effects. -/
theorem c8_null_input_fails_safely_witness :
    gstd_property_reader_read (some ()) none (some "mute") = some ⟨none, []⟩ :=
  c8_null_input_fails_safely (some ()) none (some "mute")
    (Or.inr (Or.inl rfl))

/-- C9: when `read` fails because the descriptor is missing or because
either readability bit is cleared, the trace of the call contains no
`g_object_get` event: the lookup and both permission checks happen
strictly before the value fetch, so a denied or missing property is
never read from the live object. -/
theorem c9_no_fetch_on_denied_or_missing (obj : GObjectData) (n : String)
    (h : g_object_class_find_property obj.props n = none ∨
         ∃ p, g_object_class_find_property obj.props n = some p ∧
           (p.flags.gstd_read = false ∨ p.flags.g_readable = false)) :
    ∃ tr, gstd_property_reader_read (some ()) (some obj) (some n) =
        some ⟨none, tr⟩ ∧ ∀ m, Effect.getInvoked m ∉ tr := by
  rcases h with h | ⟨p, hf, hd⟩
  · exact ⟨[Effect.logErrorNoSuch n obj.name], read_no_pspec_eq obj n h,
      fun m hm => by simp at hm⟩
  · exact ⟨[Effect.logErrorNotReadable n], read_denied_eq obj n p hf hd,
      fun m hm => by simp at hm⟩

/-- C9 witness: reading the overlay-denied property `secret` of
`deniedPropObject` fails without ever fetching the value. -/
theorem c9_no_fetch_on_denied_or_missing_witness :
    ∃ tr, gstd_property_reader_read (some ()) (some deniedPropObject)
        (some "secret") = some ⟨none, tr⟩ ∧ ∀ m, Effect.getInvoked m ∉ tr :=
  c9_no_fetch_on_denied_or_missing deniedPropObject "secret"
    (Or.inr ⟨⟨"secret", ⟨false, true⟩, GType.gInt⟩, rfl, Or.inl rfl⟩)

/-- C10: `gstd_property_mask_type` repeats the descriptor lookup and
dereferences the result without a null check; under the caller's
precondition — `read` already found a descriptor for the same object
and name — the repeated lookup returns that same non-null descriptor,
so the dispatcher never reaches the undefined-behaviour (null
dereference) outcome. -/
theorem c10_mask_deref_safe (obj : GObjectData) (n : String) (p : GParamSpec)
    (hf : g_object_class_find_property obj.props n = some p) :
    gstd_property_mask_type obj n ≠ none := by
  intro hcrash
  rcases htv : p.value_type with _ | _ | _ | _ | _ | _ | k <;>
    simp [gstd_property_mask_type, hf, htv] at hcrash

/-- C10 witness: with the descriptor for `latency` present, the
dispatcher does not hit the null dereference. -/
theorem c10_mask_deref_safe_witness :
    gstd_property_mask_type intPropObject "latency" ≠ none :=
  c10_mask_deref_safe intPropObject "latency"
    ⟨"latency", ⟨true, true⟩, GType.gUint64⟩ rfl

end Gstd
